import Mathlib

/-!
Verification development for the fred-mcp repository.

The repository is a Python MCP server exposing the FRED statistical API.
This file gives a shallow embedding, in Lean, of the pieces of the code the
claims are about:

* `src/fred_mcp/validation.py` - the parameter normalizers;
* `src/fred_mcp/errors.py`     - the error-payload builder and the tool
  error boundary;
* `src/fred_mcp/client.py`     - the retrying fetch engine (`_http_get_json`,
  `_retry_delay_seconds`, the facades `_fred_get`, `_geofred_get`,
  `_fred_v2_get`);
* `src/fred_server.py`         - the standalone server: its own (non-retrying)
  `_http_get_json`, the passthrough tools (`fred_request` etc.) and the
  reshaping tools (`get_category`, `get_category_series`, `get_observations`).

Python values decoded from JSON are modelled by the inductive `Json`;
Python dicts are modelled as insertion-ordered association lists with
overwrite-in-place assignment, matching CPython dict semantics.  Machine
floats appearing in the backoff computation are modelled by `ℚ`: every
number the code actually manipulates there (0.5 * 2^k, caps at 8.0,
decimal `Retry-After` values) is dyadic/decimal, where binary floating
point arithmetic is exact.
-/

namespace FredMcp

/-- A JSON value as decoded by Python `json.loads` / `response.json()`:
`None`, `bool`, numbers, `str`, `list`, `dict` (string-keyed,
insertion-ordered). -/
inductive Json where
  | null
  | bool (b : Bool)
  | num (q : ℚ)
  | str (s : String)
  | arr (elems : List Json)
  | obj (fields : List (String × Json))

/-- First-match lookup in an association list, i.e. Python `d.get(k)` for a
dict modelled as its (unique-keyed) item list. -/
def alGet (l : List (String × Json)) (k : String) : Option Json :=
  match l with
  | [] => Option.none
  | (k', v) :: rest => if k' = k then some v else alGet rest k

/-- Python `d[k] = v` on an insertion-ordered dict: overwrite in place when
the key exists, append otherwise. -/
def alSet (l : List (String × Json)) (k : String) (v : Json) : List (String × Json) :=
  match l with
  | [] => [(k, v)]
  | (k', v') :: rest => if k' = k then (k, v) :: rest else (k', v') :: alSet rest k v

/-- Keys of a dict, in order. -/
def alKeys (l : List (String × Json)) : List String := l.map Prod.fst

theorem alGet_alSet_self (l : List (String × Json)) (k : String) (v : Json) :
    alGet (alSet l k v) k = some v := by
  induction l with
  | nil => simp [alSet, alGet]
  | cons hd tl ih =>
    obtain ⟨k', v'⟩ := hd
    by_cases h : k' = k <;> simp [alSet, alGet, h, ih]

theorem alGet_alSet_ne (l : List (String × Json)) (k k' : String) (v : Json)
    (h : k' ≠ k) : alGet (alSet l k' v) k = alGet l k := by
  induction l with
  | nil => simp [alSet, alGet, h]
  | cons hd tl ih =>
    obtain ⟨k₀, v₀⟩ := hd
    by_cases h0 : k₀ = k'
    · subst h0
      simp [alSet, alGet, h]
    · simp only [alSet, if_neg h0]
      by_cases h1 : k₀ = k <;> simp [alGet, h1, ih]

/-! ### Python numeric conversions

`int(value)` and `float(value)` as used by the normalizers and the
`Retry-After` handling.  `int` accepts ints, bools, floats (truncation
toward zero) and decimal strings with optional surrounding whitespace and
sign; anything else raises (`TypeError`/`ValueError`), modelled as `none`.
`float(str)` accepts optionally signed decimal literals with optional
fraction and exponent.  (Python also accepts exotic spellings such as
`"inf"`, `"nan"` and underscore separators; none of the claims hinge on
those and they are not modelled.) -/

/-- Whitespace characters stripped by Python `str.strip()`. -/
def isSpaceChar (c : Char) : Bool :=
  c = ' ' || c = '\t' || c = '\n' || c = '\r' || c = '\x0b' || c = '\x0c'

/-- Python `s.strip()`: drop leading and trailing whitespace. -/
def trimChars (cs : List Char) : List Char :=
  ((cs.dropWhile isSpaceChar).reverse.dropWhile isSpaceChar).reverse

/-- Python `s.lower()` on the ASCII range the code compares against. -/
def lowerChars (cs : List Char) : List Char :=
  cs.map Char.toLower

/-- Split a character list on a separator character (like `str.split(sep)`,
keeping empty pieces). -/
def splitOnChar (sep : Char) : List Char → List (List Char)
  | [] => [[]]
  | c :: rest =>
    if c = sep then [] :: splitOnChar sep rest
    else
      match splitOnChar sep rest with
      | h :: t => (c :: h) :: t
      | [] => [[c]]

/-- Split a character list on either of two separator characters; used for
the case-insensitive exponent marker `e`/`E` of a float literal. -/
def splitOnChar2 (sep sep' : Char) : List Char → List (List Char)
  | [] => [[]]
  | c :: rest =>
    if c = sep || c = sep' then [] :: splitOnChar2 sep sep' rest
    else
      match splitOnChar2 sep sep' rest with
      | h :: t => (c :: h) :: t
      | [] => [[c]]

/-- Numeric value of a nonempty digit string. -/
def digitsVal (cs : List Char) : ℕ :=
  cs.foldl (fun a c => a * 10 + (c.toNat - 48)) 0

/-- All characters are ASCII digits and there is at least one. -/
def isDigitRun (cs : List Char) : Bool :=
  !cs.isEmpty && cs.all Char.isDigit

/-- Truncation toward zero, Python `int(float)`. -/
def pyTrunc (q : ℚ) : ℤ :=
  if 0 ≤ q then ⌊q⌋ else ⌈q⌉

/-- Python `int(s)` on a string: strip whitespace, optional sign, digits. -/
def parsePyInt (s : String) : Option ℤ :=
  match trimChars s.toList with
  | '+' :: rest => if isDigitRun rest then some (digitsVal rest) else Option.none
  | '-' :: rest => if isDigitRun rest then some (-(digitsVal rest : ℤ)) else Option.none
  | rest => if isDigitRun rest then some (digitsVal rest) else Option.none

/-- Python `int(value)` on a decoded JSON value. -/
def pyInt (v : Json) : Option ℤ :=
  match v with
  | .null => Option.none
  | .bool b => some (if b then 1 else 0)
  | .num q => some (pyTrunc q)
  | .str s => parsePyInt s
  | .arr _ => Option.none
  | .obj _ => Option.none

/-- Mantissa of a float literal: `digits`, `digits.digits`, `digits.`, or
`.digits`. -/
def parseMantissa (m : List Char) : Option ℚ :=
  match splitOnChar '.' m with
  | [i] =>
    if isDigitRun i then some (digitsVal i : ℚ) else Option.none
  | [i, f] =>
    if (i ++ f).all Char.isDigit && !(i.isEmpty && f.isEmpty) then
      some ((digitsVal i : ℚ) + (digitsVal f : ℚ) / 10 ^ f.length)
    else Option.none
  | _ => Option.none

/-- Exponent part of a float literal: optional sign, digits. -/
def parseExp (e : List Char) : Option ℤ :=
  match e with
  | '+' :: rest => if isDigitRun rest then some (digitsVal rest) else Option.none
  | '-' :: rest => if isDigitRun rest then some (-(digitsVal rest : ℤ)) else Option.none
  | rest => if isDigitRun rest then some (digitsVal rest) else Option.none

/-- Python `float(s)`: strip whitespace, optional sign, decimal mantissa,
optional `e`/`E` exponent. -/
def parsePyFloat (s : String) : Option ℚ :=
  let t := trimChars s.toList
  let (sign, body) : ℚ × List Char :=
    match t with
    | '+' :: rest => (1, rest)
    | '-' :: rest => (-1, rest)
    | _ => (1, t)
  match splitOnChar2 'e' 'E' body with
  | [m] => (parseMantissa m).map (fun q => sign * q)
  | [m, e] => do
    let q ← parseMantissa m
    let ex ← parseExp e
    pure (sign * q * (10 : ℚ) ^ ex)
  | _ => Option.none

/-! ### Parameter normalizers (`src/fred_mcp/validation.py`)

`_clamp`, `_non_negative` are also defined, identically, in
`src/fred_server.py` (lines 23-28); they are embedded once. -/

/-- Python `_clamp(value, low, high) = max(low, min(value, high))`. -/
def _clamp (value low high : ℤ) : ℤ :=
  max low (min value high)

/-- Python `_non_negative(value) = max(0, value)`. -/
def _non_negative (value : ℤ) : ℤ :=
  max 0 value

/-- Python `_normalize_limit`: `int(value)` with fallback `low` on
`TypeError`/`ValueError`, then clamp into `[low, high]`. -/
def _normalize_limit (value : Json) (low high : ℤ) : ℤ :=
  _clamp ((pyInt value).getD low) low high

/-- Python `_normalize_offset`: `int(value)` with fallback `0`, then floor at 0. -/
def _normalize_offset (value : Json) : ℤ :=
  _non_negative ((pyInt value).getD 0)

/-! ### `_clean_params` (`src/fred_mcp/client.py` lines 52-61; the identical
function also appears in `src/fred_server.py` lines 48-57) -/

/-- Drop `None` values; serialize booleans to lowercase `"true"`/`"false"`
strings; pass everything else through unchanged. -/
def _clean_params (params : List (String × Json)) : List (String × Json) :=
  match params with
  | [] => []
  | (k, v) :: rest =>
    match v with
    | .null => _clean_params rest
    | .bool b => (k, .str (if b then "true" else "false")) :: _clean_params rest
    | v => (k, v) :: _clean_params rest

/-! ### Error model (`src/fred_mcp/errors.py`) -/

/-- Python `s.strip("/")`: drop leading and trailing slash characters. -/
def stripSlashes (s : String) : String :=
  String.mk (((s.toList.dropWhile (fun c => c = '/')).reverse.dropWhile
    (fun c => c = '/')).reverse)

/-- Conversion of `Option String` to JSON: `None` becomes `null`. -/
def optStrJson : Option String → Json
  | some s => .str s
  | Option.none => .null

/-- Conversion of `Option ℤ` to JSON: `None` becomes `null`. -/
def optIntJson : Option ℤ → Json
  | some n => .num n
  | Option.none => .null

/-- Function `_error_payload` (errors.py lines 15-38): the canonical Error Payload,
a dict with keys `error` and `error_details`.  The endpoint is stored
stripped of leading/trailing slashes; a `None` or empty endpoint is stored
as `null` (Python `endpoint.strip("/") if endpoint else None`). -/
def _error_payload (message code error_type : String)
    (base_url endpoint : Option String) (status_code : Option ℕ)
    (retryable : Bool) (details : List (String × Json)) : Json :=
  .obj [("error", .str message),
        ("error_details", .obj
          [("type", .str error_type),
           ("code", .str code),
           ("base_url", optStrJson base_url),
           ("endpoint", match endpoint with
                        | some e => if e = "" then .null else .str (stripSlashes e)
                        | Option.none => .null),
           ("status_code", match status_code with
                           | some n => .num n
                           | Option.none => .null),
           ("retryable", .bool retryable),
           ("details", .obj details)])]

/-- Outcome of awaiting a tool coroutine: a returned value, or one of the
exception classes the boundary in errors.py discriminates on
(`asyncio.CancelledError`, `FredServerError` carrying its payload,
`ValueError` carrying its message, or any other `Exception` carrying its
type name). -/
inductive ToolOutcome where
  | ok (result : Json)
  | cancelled
  | fredError (payload : Json)
  | valueError (msg : String)
  | otherError (exceptionType : String)

/-- Function `_tool_error_boundary` (errors.py lines 41-67): re-raise cancellation,
unwrap a `FredServerError` to its payload, turn a `ValueError` into a
validation-error payload, and turn any other exception into an
internal-error payload exposing only the exception type name. -/
def _tool_error_boundary : ToolOutcome → ToolOutcome
  | .ok r => .ok r
  | .cancelled => .cancelled
  | .fredError p => .ok p
  | .valueError m =>
    .ok (_error_payload m "validation_error" "validation_error"
      Option.none Option.none Option.none false [])
  | .otherError t =>
    .ok (_error_payload "Internal server error" "internal_error" "internal_error"
      Option.none Option.none Option.none false [("exception_type", .str t)])

/-! ### Credential and request construction

`_fred_api_key`, `_clean_params` and the query-building prefix of
`_http_get_json` are textually identical in `src/fred_mcp/client.py` and in
`src/fred_server.py`; they are embedded once and shared by both engine
embeddings below.  The environment variable `FRED_API_KEY` is modelled as
an `Option String` parameter (`os.getenv` returning `None` when unset). -/

/-- Function `_fred_api_key`: read, trim, and require a non-empty key; a missing or
blank key raises `ValueError` (modelled as `Except.error` carrying the
message). -/
def _fred_api_key (env : Option String) : Except String String :=
  let key := String.mk (trimChars (env.getD "").toList)
  if key = "" then .error "Missing FRED_API_KEY environment variable"
  else .ok key

/-- Decoded body of an upstream HTTP response: a JSON document, or a body
on which `response.json()` raises `JSONDecodeError` (a `ValueError`). -/
inductive Body where
  | json (j : Json)
  | invalid (msg : String)

/-- An upstream HTTP response: status code, optional `Retry-After` header
value, decoded body. -/
structure HResponse where
  status : ℕ
  retryAfter : Option String
  body : Body

/-- The outgoing request a fetch issues: base URL, normalized endpoint
path, query parameters, request headers. -/
structure Request where
  base_url : String
  endpoint : String
  query : List (String × Json)
  headers : List (String × String)

/-- The query-construction prefix shared by both `_http_get_json`
implementations (client.py lines 109-112, fred_server.py lines 89-92):
clean the parameters, inject `api_key` as a query parameter when
requested (raising `ValueError` when the key is missing), and force
`file_type=json`. -/
def buildQuery (env : Option String) (params : List (String × Json))
    (include_api_key_query : Bool) : Except String (List (String × Json)) :=
  if include_api_key_query then
    match _fred_api_key env with
    | .error m => .error m
    | .ok key =>
      .ok (alSet (alSet (_clean_params params) "api_key" (.str key))
        "file_type" (.str "json"))
  else .ok (alSet (_clean_params params) "file_type" (.str "json"))

/-- The full outgoing request of `_http_get_json`: built query, endpoint
stripped of slashes, caller-supplied headers. -/
def outgoingRequest (env : Option String) (base_url endpoint : String)
    (params : List (String × Json)) (headers : List (String × String))
    (include_api_key_query : Bool) : Except String Request :=
  (buildQuery env params include_api_key_query).map
    (fun q => ⟨base_url, stripSlashes endpoint, q, headers⟩)

/-! ### Constants (`src/fred_mcp/client.py` lines 13-21) -/

def FRED_API_BASE : String := "https://api.stlouisfed.org/fred"
def GEOFRED_API_BASE : String := "https://api.stlouisfed.org/geofred"
def FRED_V2_API_BASE : String := "https://api.stlouisfed.org/fred/v2"
def HTTP_MAX_RETRIES : ℕ := 3
def BACKOFF_BASE_SECONDS : ℚ := 1/2
def BACKOFF_MAX_SECONDS : ℚ := 8
def RETRYABLE_STATUS_CODES : List ℕ := [429, 500, 502, 503, 504]

/-- Function `_retry_delay_seconds` (client.py lines 87-99): a numeric `Retry-After`
header on the failing response is used directly, clamped into
`[0, BACKOFF_MAX_SECONDS]`; a non-numeric value, a missing header, or no
response falls through to exponential backoff
`min(BACKOFF_BASE_SECONDS * 2^(attempt-1), BACKOFF_MAX_SECONDS)`. -/
def _retry_delay_seconds (attempt : ℕ) (response : Option HResponse) : ℚ :=
  match response with
  | some r =>
    match r.retryAfter with
    | some ra =>
      match parsePyFloat ra with
      | some q => max 0 (min q BACKOFF_MAX_SECONDS)
      | Option.none => min (BACKOFF_BASE_SECONDS * 2 ^ (attempt - 1)) BACKOFF_MAX_SECONDS
    | Option.none => min (BACKOFF_BASE_SECONDS * 2 ^ (attempt - 1)) BACKOFF_MAX_SECONDS
  | Option.none => min (BACKOFF_BASE_SECONDS * 2 ^ (attempt - 1)) BACKOFF_MAX_SECONDS

/-! ### The resilient fetch engine (`src/fred_mcp/client.py` lines 102-237)

The engine is driven by an oracle `attemptOf : ℕ → AttemptR` giving, for
each 1-indexed attempt, what `await client.get(...)` does: deliver a
response, raise a transport-level `httpx.RequestError`, or get cancelled.
The outgoing request is the same on every attempt (`url`, `query` and
`headers` are computed once before the loop), so the oracle needs only the
attempt number.  The trace records the number of GET requests issued and
the backoff sleeps performed, in order. -/

/-- What one `await client.get(...)` does on a given attempt. -/
inductive AttemptR where
  | resp (r : HResponse)
  | transport (msg : String)
  | cancel

/-- Terminal outcome of one engine call: a returned JSON object, a raised
`FredServerError` carrying its payload, a raised `ValueError` (missing API
key, before any request), a propagated cancellation, or the (unreachable
for a positive attempt budget) implicit `None` of a completed `for` loop. -/
inductive FetchOutcome where
  | success (j : Json)
  | fredError (payload : Json)
  | valueErr (msg : String)
  | cancelled
  | pyNone

/-- Trace of one engine call: GET requests issued, sleeps performed (in
order), terminal outcome. -/
structure CTrace where
  requests : ℕ
  sleeps : List ℚ
  outcome : FetchOutcome

/-- Test `isinstance(payload, dict)`: true exactly on JSON objects. -/
def isJsonObj : Json → Bool
  | .obj _ => true
  | _ => false

/-- Payload raised on a terminal upstream HTTP failure status
(client.py lines 168-179). -/
def upstream_http_error_payload (base_url nep : String) (status : ℕ)
    (retryable : Bool) (attempt : ℕ) : Json :=
  _error_payload ("Upstream request failed with status " ++ toString status)
    "upstream_http_error" "upstream_http_error" (some base_url) (some nep)
    (some status) retryable [("attempt", .num attempt)]

/-- Payload raised on a terminal transport failure (client.py lines
207-217); always marked retryable. -/
def upstream_network_error_payload (base_url nep : String) (attempt : ℕ) : Json :=
  _error_payload "Network error while contacting upstream API"
    "upstream_network_error" "upstream_network_error" (some base_url) (some nep)
    Option.none true [("attempt", .num attempt)]

/-- Payload raised when a 2xx body decodes to a non-object (client.py
lines 126-135). -/
def upstream_invalid_payload_payload (base_url nep : String) (attempt : ℕ) : Json :=
  _error_payload "Upstream response was not a JSON object"
    "upstream_invalid_payload" "upstream_invalid_payload" (some base_url) (some nep)
    Option.none false [("attempt", .num attempt)]

/-- Payload raised when a 2xx body fails to decode as JSON (client.py
lines 228-237). -/
def upstream_invalid_json_payload (base_url nep : String) (attempt : ℕ)
    (reason : String) : Json :=
  _error_payload "Failed to decode upstream JSON response"
    "upstream_invalid_json" "upstream_invalid_json" (some base_url) (some nep)
    Option.none false [("attempt", .num attempt), ("reason", .str reason)]

/-- The attempt loop of client.py `_http_get_json` (lines 120-237), over
the list of remaining attempt numbers (`range(1, max_attempts + 1)`).
`raise_for_status` raises `httpx.HTTPStatusError` exactly on non-2xx
statuses; a retryable failure status with attempts remaining sleeps
`_retry_delay_seconds(attempt, response)` and continues; a transport error
with attempts remaining sleeps `_retry_delay_seconds(attempt)` and
continues; and a 2xx response returns its decoded object, or raises the
invalid-json / invalid-payload `FredServerError` with no retry. -/
def client_fetch_loop (attemptOf : ℕ → AttemptR) (base_url nep : String)
    (max_attempts : ℕ) :
    List ℕ → ℕ → List ℚ → CTrace
  | [], reqs, sleeps => ⟨reqs, sleeps.reverse, .pyNone⟩
  | attempt :: rest, reqs, sleeps =>
    match attemptOf attempt with
    | .cancel => ⟨reqs + 1, sleeps.reverse, .cancelled⟩
    | .transport _msg =>
      if attempt < max_attempts then
        client_fetch_loop attemptOf base_url nep max_attempts rest (reqs + 1)
          (_retry_delay_seconds attempt Option.none :: sleeps)
      else
        ⟨reqs + 1, sleeps.reverse,
          .fredError (upstream_network_error_payload base_url nep attempt)⟩
    | .resp r =>
      if 200 ≤ r.status ∧ r.status ≤ 299 then
        match r.body with
        | .json j =>
          if isJsonObj j then ⟨reqs + 1, sleeps.reverse, .success j⟩
          else
            ⟨reqs + 1, sleeps.reverse,
              .fredError (upstream_invalid_payload_payload base_url nep attempt)⟩
        | .invalid m =>
          ⟨reqs + 1, sleeps.reverse,
            .fredError (upstream_invalid_json_payload base_url nep attempt m)⟩
      else
        let retryable := RETRYABLE_STATUS_CODES.contains r.status
        if retryable && decide (attempt < max_attempts) then
          client_fetch_loop attemptOf base_url nep max_attempts rest (reqs + 1)
            (_retry_delay_seconds attempt (some r) :: sleeps)
        else
          ⟨reqs + 1, sleeps.reverse,
            .fredError (upstream_http_error_payload base_url nep r.status retryable attempt)⟩

namespace Client

/-- Function `_http_get_json` of `src/fred_mcp/client.py`: build the outgoing
request (a missing API key raises `ValueError` before any request), then
run the attempt loop with `max_attempts = HTTP_MAX_RETRIES + 1`. -/
def _http_get_json (env : Option String) (attemptOf : ℕ → AttemptR)
    (base_url endpoint : String) (params : List (String × Json))
    (headers : List (String × String)) (include_api_key_query : Bool) : CTrace :=
  match outgoingRequest env base_url endpoint params headers include_api_key_query with
  | .error m => ⟨0, [], .valueErr m⟩
  | .ok _req =>
    client_fetch_loop attemptOf base_url (stripSlashes endpoint)
      (HTTP_MAX_RETRIES + 1) (List.range' 1 (HTTP_MAX_RETRIES + 1)) 0 []

/-- Facade `_fred_get` (client.py lines 240-241). -/
def _fred_get (env : Option String) (attemptOf : ℕ → AttemptR)
    (endpoint : String) (params : List (String × Json)) : CTrace :=
  _http_get_json env attemptOf FRED_API_BASE endpoint params [] true

/-- Facade `_geofred_get` (client.py lines 244-245). -/
def _geofred_get (env : Option String) (attemptOf : ℕ → AttemptR)
    (endpoint : String) (params : List (String × Json)) : CTrace :=
  _http_get_json env attemptOf GEOFRED_API_BASE endpoint params [] true

/-- Facade `_fred_v2_get` (client.py lines 248-255): the API key goes into a
request header named `api_key` (computed before the call; a missing key
raises `ValueError`), and `include_api_key_query=False`. -/
def _fred_v2_get (env : Option String) (attemptOf : ℕ → AttemptR)
    (endpoint : String) (params : List (String × Json)) : CTrace :=
  match _fred_api_key env with
  | .error m => ⟨0, [], .valueErr m⟩
  | .ok key =>
    _http_get_json env attemptOf FRED_V2_API_BASE endpoint params
      [("api_key", key)] false

/-- The outgoing request of a v1 primary facade call, with the same
arguments `_fred_get` passes to `_http_get_json`. -/
def fredOutgoing (env : Option String) (endpoint : String)
    (params : List (String × Json)) : Except String Request :=
  outgoingRequest env FRED_API_BASE endpoint params [] true

/-- The outgoing request of a geographic facade call. -/
def geofredOutgoing (env : Option String) (endpoint : String)
    (params : List (String × Json)) : Except String Request :=
  outgoingRequest env GEOFRED_API_BASE endpoint params [] true

/-- The outgoing request of a v2 facade call, with the same arguments
`_fred_v2_get` passes to `_http_get_json`. -/
def fredV2Outgoing (env : Option String) (endpoint : String)
    (params : List (String × Json)) : Except String Request :=
  match _fred_api_key env with
  | .error m => .error m
  | .ok key =>
    outgoingRequest env FRED_V2_API_BASE endpoint params [("api_key", key)] false

end Client

/-! ### The server-local engine (`src/fred_server.py` lines 82-117)

`src/fred_server.py` does not import `fred_mcp.client`; it carries its own
`_http_get_json` with the same query construction but no retry loop, no
status classification and no payload shaping: it opens a fresh client,
issues one GET, calls `raise_for_status()` (letting `httpx.HTTPStatusError`
propagate) and returns `response.json()` unchecked. -/

/-- An exception escaping the server-local pipeline. -/
inductive PyExc where
  | valueError (msg : String)
  | httpStatusError (status : ℕ)

/-- Trace of a server-local call: requests issued, and either a returned
value or a raised exception. -/
structure STrace where
  requests : ℕ
  result : Except PyExc Json

namespace Server

/-- Function `_http_get_json` of `src/fred_server.py` (lines 82-99): build the same
query, issue exactly one GET, raise on non-2xx, and return the decoded
body whatever its shape (an undecodable body raises `JSONDecodeError`,
a `ValueError`). -/
def _http_get_json (env : Option String) (oracle : Request → HResponse)
    (base_url endpoint : String) (params : List (String × Json))
    (headers : List (String × String)) (include_api_key_query : Bool) : STrace :=
  match outgoingRequest env base_url endpoint params headers include_api_key_query with
  | .error m => ⟨0, .error (.valueError m)⟩
  | .ok req =>
    let r := oracle req
    if 200 ≤ r.status ∧ r.status ≤ 299 then
      match r.body with
      | .json j => ⟨1, .ok j⟩
      | .invalid m => ⟨1, .error (.valueError m)⟩
    else ⟨1, .error (.httpStatusError r.status)⟩

/-- Facade `_fred_get` (fred_server.py lines 102-103). -/
def _fred_get (env : Option String) (oracle : Request → HResponse)
    (endpoint : String) (params : List (String × Json)) : STrace :=
  _http_get_json env oracle FRED_API_BASE endpoint params [] true

/-- Facade `_geofred_get` (fred_server.py lines 106-107). -/
def _geofred_get (env : Option String) (oracle : Request → HResponse)
    (endpoint : String) (params : List (String × Json)) : STrace :=
  _http_get_json env oracle GEOFRED_API_BASE endpoint params [] true

/-- Facade `_fred_v2_get` (fred_server.py lines 110-117). -/
def _fred_v2_get (env : Option String) (oracle : Request → HResponse)
    (endpoint : String) (params : List (String × Json)) : STrace :=
  match _fred_api_key env with
  | .error m => ⟨0, .error (.valueError m)⟩
  | .ok key =>
    _http_get_json env oracle FRED_V2_API_BASE endpoint params
      [("api_key", key)] false

end Server

/-! ### `json.loads` and `_parse_json_object`

A recursive-descent JSON reader modelling Python `json.loads` on the
inputs the passthrough tools receive.  It accepts the standard grammar
(objects, arrays, strings with the common escapes, numbers, `true`,
`false`, `null`) and rejects everything else; diagnostics follow the CPython
wording where convenient but positional suffixes (`line 1 column 2 …`) are
not reproduced.  Duplicate object keys overwrite in place, as for a
CPython dict. -/

/-- Python `s.startswith(pre)`. -/
def beginsWith (pre s : String) : Bool :=
  s.toList.take pre.toList.length = pre.toList

/-- Skip JSON whitespace. -/
def skipWs (cs : List Char) : List Char :=
  cs.dropWhile (fun c => c = ' ' || c = '\t' || c = '\n' || c = '\r')

/-- Drop an expected literal prefix. -/
def dropLit : List Char → List Char → Option (List Char)
  | [], cs => some cs
  | _ :: _, [] => Option.none
  | l :: ls, c :: cs => if c = l then dropLit ls cs else Option.none

/-- Characters a number token may contain. -/
def isNumChar (c : Char) : Bool :=
  c.isDigit || c = '-' || c = '+' || c = '.' || c = 'e' || c = 'E'

/-- Read a JSON string body (after the opening quote), handling the common
escapes. -/
def parseJsonString : List Char → List Char → Except String (String × List Char)
  | [], _ => .error "unterminated string"
  | '"' :: rest, acc => .ok (String.mk acc.reverse, rest)
  | '\\' :: e :: rest, acc =>
    if e = 'n' then parseJsonString rest ('\n' :: acc)
    else if e = 't' then parseJsonString rest ('\t' :: acc)
    else if e = 'r' then parseJsonString rest ('\r' :: acc)
    else if e = '"' then parseJsonString rest ('"' :: acc)
    else if e = '\\' then parseJsonString rest ('\\' :: acc)
    else if e = '/' then parseJsonString rest ('/' :: acc)
    else .error "unsupported escape"
  | ['\\'], _ => .error "unterminated string"
  | c :: rest, acc => parseJsonString rest (c :: acc)

mutual

/-- Read one JSON value.  Fuel decreases on every nesting step and every
object/array element, each of which consumes at least one character, so
`length + 1` fuel always suffices. -/
def parseJsonValue : ℕ → List Char → Except String (Json × List Char)
  | 0, _ => .error "input too deeply nested"
  | fuel + 1, cs =>
    match skipWs cs with
    | [] => .error "Expecting value"
    | c :: rest =>
      if c = '\x7b' then parseObjFields fuel rest []
      else if c = '[' then parseArrElems fuel rest []
      else if c = '"' then
        (parseJsonString rest []).map (fun p => (.str p.1, p.2))
      else
        match dropLit "true".toList (c :: rest) with
        | some r => .ok (.bool true, r)
        | Option.none =>
          match dropLit "false".toList (c :: rest) with
          | some r => .ok (.bool false, r)
          | Option.none =>
            match dropLit "null".toList (c :: rest) with
            | some r => .ok (.null, r)
            | Option.none =>
              if c.isDigit || c = '-' then
                match parsePyFloat (String.mk ((c :: rest).takeWhile isNumChar)) with
                | some q => .ok (.num q, (c :: rest).dropWhile isNumChar)
                | Option.none => .error "Expecting value"
              else .error "Expecting value"

/-- Read object fields, called right after `{` (with `acc = []`) or right
after a separating comma. -/
def parseObjFields : ℕ → List Char → List (String × Json) →
    Except String (Json × List Char)
  | 0, _, _ => .error "input too deeply nested"
  | fuel + 1, cs, acc =>
    match skipWs cs with
    | '\x7d' :: rest =>
      if acc.isEmpty then .ok (.obj [], rest)
      else .error "Expecting property name enclosed in double quotes"
    | '"' :: rest => do
      let (key, r1) ← parseJsonString rest []
      match skipWs r1 with
      | ':' :: r2 => do
        let (v, r3) ← parseJsonValue fuel r2
        match skipWs r3 with
        | ',' :: r4 => parseObjFields fuel r4 (alSet acc key v)
        | '\x7d' :: r4 => .ok (.obj (alSet acc key v), r4)
        | _ => .error "Expecting \x27,\x27 delimiter"
      | _ => .error "Expecting \x27:\x27 delimiter"
    | _ => .error "Expecting property name enclosed in double quotes"

/-- Read array elements, called right after `[` (with `acc = []`) or right
after a separating comma. -/
def parseArrElems : ℕ → List Char → List Json →
    Except String (Json × List Char)
  | 0, _, _ => .error "input too deeply nested"
  | fuel + 1, cs, acc =>
    match skipWs cs with
    | ']' :: rest =>
      if acc.isEmpty then .ok (.arr [], rest)
      else .error "Expecting value"
    | cs' => do
      let (v, r1) ← parseJsonValue fuel cs'
      match skipWs r1 with
      | ',' :: r2 => parseArrElems fuel r2 (acc ++ [v])
      | ']' :: r2 => .ok (.arr (acc ++ [v]), r2)
      | _ => .error "Expecting \x27,\x27 delimiter"

end

/-- Python `json.loads`: parse one value and require only whitespace to
remain. -/
def json_loads (s : String) : Except String Json :=
  match parseJsonValue (s.toList.length + 1) s.toList with
  | .error m => .error m
  | .ok (j, rest) =>
    if (skipWs rest).isEmpty then .ok j else .error "Extra data"

/-- Function `_parse_json_object` (fred_server.py lines 72-79, identical in
client.py lines 64-71): decode, prefixing decode failures with
`"Invalid JSON: "`, and require the decoded value to be an object,
returning its fields. -/
def _parse_json_object (raw : String) : Except String (List (String × Json)) :=
  match json_loads raw with
  | .error m => .error ("Invalid JSON: " ++ m)
  | .ok (.obj fields) => .ok fields
  | .ok _ => .error "JSON value must be an object"

/-! ### Tools of `src/fred_server.py`

The `@mcp.tool()` functions are plain `async def`s; none of them is
wrapped with `fred_mcp.errors._tool_error_boundary` (which has no caller
anywhere in the repository), so any exception a tool body raises — e.g.
the `ValueError` from `_fred_api_key`, or the `httpx.HTTPStatusError` from
`raise_for_status` — propagates past the tool function.  The embeddings
therefore return an `STrace` whose result is `Except PyExc Json`. -/

/-- Python `row.get(k)` on a dict row, with `None` (modelled `null`) when
the key is absent.  The claims only concern dict rows; a non-dict row,
which would raise `AttributeError` in CPython, is also mapped to `null`. -/
def rowGet (row : Json) (k : String) : Json :=
  match row with
  | .obj o => (alGet o k).getD .null
  | _ => .null

/-- Python `data.get(k, [])` narrowed to lists.  The claims only concern
responses where the key is absent or holds a list; a non-list value, over
which the list comprehension would raise in CPython, is mapped to `[]`. -/
def jsonArrGet (data : Json) (k : String) : List Json :=
  match data with
  | .obj o =>
    match alGet o k with
    | some (.arr l) => l
    | _ => []
  | _ => []

/-- Python `data.get(k, d)`. -/
def dataGetD (data : Json) (k : String) (d : Json) : Json :=
  match data with
  | .obj o => (alGet o k).getD d
  | _ => d

/-- Python `value == "."` for a decoded JSON value: true exactly when the
value is the sentinel string `"."`. -/
def isDotSentinel : Json → Bool
  | .str s => s = "."
  | _ => false

namespace Server

/-- Function `_normalize_sort_order` (fred_server.py lines 31-32):
`"asc" if value.strip().lower() == "asc" else "desc"`. -/
def _normalize_sort_order (value : String) : String :=
  if String.mk (lowerChars (trimChars value.toList)) = "asc" then "asc" else "desc"

/-- Tool `fred_request` (fred_server.py lines 124-131): decode `params_json`;
on `ValueError` return the plain dict `{"error": str(exc)}` with no
request made; otherwise forward through `_fred_get`. -/
def fred_request (env : Option String) (oracle : Request → HResponse)
    (endpoint : String) (params_json : String) : STrace :=
  match _parse_json_object params_json with
  | .error m => ⟨0, .ok (.obj [("error", .str m)])⟩
  | .ok params => _fred_get env oracle endpoint params

/-- Tool `geofred_request` (fred_server.py lines 134-141). -/
def geofred_request (env : Option String) (oracle : Request → HResponse)
    (endpoint : String) (params_json : String) : STrace :=
  match _parse_json_object params_json with
  | .error m => ⟨0, .ok (.obj [("error", .str m)])⟩
  | .ok params => _geofred_get env oracle endpoint params

/-- Tool `fred_v2_request` (fred_server.py lines 144-151). -/
def fred_v2_request (env : Option String) (oracle : Request → HResponse)
    (endpoint : String) (params_json : String) : STrace :=
  match _parse_json_object params_json with
  | .error m => ⟨0, .ok (.obj [("error", .str m)])⟩
  | .ok params => _fred_v2_get env oracle endpoint params

/-- Tool `get_category` (fred_server.py lines 158-176): fetch `category`,
unwrap the first element of `categories`, or return a not-found dict when
the list is empty.  Exceptions from the fetch — including the missing-key
`ValueError` — propagate. -/
def get_category (env : Option String) (oracle : Request → HResponse)
    (category_id : ℤ) (realtime_start realtime_end : Option String) : STrace :=
  let t := _fred_get env oracle "category"
    [("category_id", .num category_id),
     ("realtime_start", optStrJson realtime_start),
     ("realtime_end", optStrJson realtime_end)]
  match t.result with
  | .error e => ⟨t.requests, .error e⟩
  | .ok data =>
    match jsonArrGet data "categories" with
    | [] =>
      ⟨t.requests, .ok (.obj [("error",
        .str ("Category \x27" ++ toString category_id ++ "\x27 not found"))])⟩
    | c :: _ => ⟨t.requests, .ok c⟩

/-- Function `_compact_series_row` (fred_server.py lines 60-69). -/
def _compact_series_row (row : Json) : Json :=
  .obj [("id", rowGet row "id"),
        ("title", rowGet row "title"),
        ("frequency", rowGet row "frequency"),
        ("units", rowGet row "units"),
        ("observation_start", rowGet row "observation_start"),
        ("observation_end", rowGet row "observation_end"),
        ("popularity", rowGet row "popularity")]

/-- The result construction of `get_category_series` (fred_server.py lines
244-250): projected series rows, with `count` and `offset` taken from the
upstream response when present and defaulted to the local values
otherwise. -/
def get_category_series_reshape (category_id offset : ℤ) (data : Json) : Json :=
  let series_rows := (jsonArrGet data "seriess").map _compact_series_row
  .obj [("category_id", .num category_id),
        ("count", dataGetD data "count" (.num series_rows.length)),
        ("offset", dataGetD data "offset" (.num offset)),
        ("results", .arr series_rows)]

/-- Tool `get_category_series` (fred_server.py lines 213-250). -/
def get_category_series (env : Option String) (oracle : Request → HResponse)
    (category_id : ℤ) (limit offset : ℤ) (order_by sort_order : String)
    (filter_variable filter_value tag_names exclude_tag_names
      realtime_start realtime_end : Option String) : STrace :=
  let t := _fred_get env oracle "category/series"
    [("category_id", .num category_id),
     ("limit", .num (_clamp limit 1 1000)),
     ("offset", .num (_non_negative offset)),
     ("order_by", .str order_by),
     ("sort_order", .str (_normalize_sort_order sort_order)),
     ("filter_variable", optStrJson filter_variable),
     ("filter_value", optStrJson filter_value),
     ("tag_names", optStrJson tag_names),
     ("exclude_tag_names", optStrJson exclude_tag_names),
     ("realtime_start", optStrJson realtime_start),
     ("realtime_end", optStrJson realtime_end)]
  match t.result with
  | .error e => ⟨t.requests, .error e⟩
  | .ok data => ⟨t.requests, .ok (get_category_series_reshape category_id offset data)⟩

/-- One output row of `get_observations` (fred_server.py lines 641-644):
`{"date": row.get("date"), "value": None if row.get("value") == "." else
row.get("value")}`. -/
def clean_observation_row (row : Json) : Json :=
  .obj [("date", rowGet row "date"),
        ("value", if isDotSentinel (rowGet row "value") then .null
                  else rowGet row "value")]

/-- The result construction of `get_observations` (fred_server.py lines
640-650): reshape every upstream observation row, and report `count` as
the length of the reshaped list — not the upstream `count` field. -/
def get_observations_reshape (series_id : String) (offset : ℤ)
    (data : Json) : Json :=
  let cleaned := (jsonArrGet data "observations").map clean_observation_row
  .obj [("series_id", .str series_id),
        ("count", .num cleaned.length),
        ("offset", dataGetD data "offset" (.num offset)),
        ("observations", .arr cleaned)]

/-- Tool `get_observations` (fred_server.py lines 605-650). -/
def get_observations (env : Option String) (oracle : Request → HResponse)
    (series_id : String) (realtime_start realtime_end : Option String)
    (limit offset : ℤ) (sort_order : String)
    (observation_start observation_end units frequency
      aggregation_method : Option String)
    (output_type : Option ℤ) (vintage_dates : Option String) : STrace :=
  let t := _fred_get env oracle "series/observations"
    [("series_id", .str series_id),
     ("realtime_start", optStrJson realtime_start),
     ("realtime_end", optStrJson realtime_end),
     ("limit", .num (_clamp limit 1 100000)),
     ("offset", .num (_non_negative offset)),
     ("sort_order", .str (_normalize_sort_order sort_order)),
     ("observation_start", optStrJson observation_start),
     ("observation_end", optStrJson observation_end),
     ("units", optStrJson units),
     ("frequency", optStrJson frequency),
     ("aggregation_method", optStrJson aggregation_method),
     ("output_type", optIntJson output_type),
     ("vintage_dates", optStrJson vintage_dates)]
  match t.result with
  | .error e => ⟨t.requests, .error e⟩
  | .ok data => ⟨t.requests, .ok (get_observations_reshape series_id offset data)⟩

end Server

/-! ## Theorems -/

/-- Claim C9: `_clean_params` is idempotent — one pass removes every
`None` value and serializes every boolean to `"true"`/`"false"`, so a
second pass over its own output changes nothing. -/
theorem clean_params_idempotent (params : List (String × Json)) :
    _clean_params (_clean_params params) = _clean_params params := by
  induction params with
  | nil => rfl
  | cons hd tl ih =>
    obtain ⟨k, v⟩ := hd
    cases v <;> simp [_clean_params, ih]

/-- Claim C7: the paging normalizers are total and always in range: for
bounds `low ≤ high`, `_normalize_limit` lands in `[low, high]` and falls
back to `low` on non-numeric or missing input; `_normalize_offset` returns
`0` on negative, non-numeric or missing input and the value itself on
non-negative numeric input; and the shared `_clamp` itself lands in
`[low, high]`. -/
theorem normalizers_total_and_in_range :
    (∀ (value low high : ℤ), low ≤ high →
      low ≤ _clamp value low high ∧ _clamp value low high ≤ high)
    ∧ (∀ (value : Json) (low high : ℤ), low ≤ high →
      low ≤ _normalize_limit value low high ∧ _normalize_limit value low high ≤ high)
    ∧ (∀ (value : Json) (low high : ℤ), low ≤ high → pyInt value = Option.none →
      _normalize_limit value low high = low)
    ∧ (∀ value : Json, pyInt value = Option.none → _normalize_offset value = 0)
    ∧ (∀ (value : Json) (n : ℤ), pyInt value = some n → n < 0 →
      _normalize_offset value = 0)
    ∧ (∀ (value : Json) (n : ℤ), pyInt value = some n → 0 ≤ n →
      _normalize_offset value = n) := by
  refine ⟨?_, ?_, ?_, ?_, ?_, ?_⟩
  · intro v low high h
    exact ⟨le_max_left _ _, max_le h (min_le_right _ _)⟩
  · intro v low high h
    exact ⟨le_max_left _ _, max_le h (min_le_right _ _)⟩
  · intro v low high h hv
    simp [_normalize_limit, hv, _clamp, min_eq_left h]
  · intro v hv
    simp [_normalize_offset, hv, _non_negative]
  · intro v n hv hn
    simp only [_normalize_offset, hv, Option.getD_some, _non_negative]
    omega
  · intro v n hv hn
    simp only [_normalize_offset, hv, Option.getD_some, _non_negative]
    omega

/-- Witness for C7 at concrete inputs: an over-bound limit is clamped to
the upper bound, a non-numeric limit falls back to the lower bound, and
the offset normalizer maps missing/negative input to 0 and keeps a
non-negative value. -/
theorem normalizers_total_and_in_range_witness :
    (1 ≤ _clamp 5000 1 1000 ∧ _clamp 5000 1 1000 ≤ 1000)
    ∧ (1 ≤ _normalize_limit (.num 5000) 1 1000
        ∧ _normalize_limit (.num 5000) 1 1000 ≤ 1000)
    ∧ _normalize_limit (.str "junk") 1 1000 = 1
    ∧ _normalize_offset .null = 0
    ∧ _normalize_offset (.num (-5)) = 0
    ∧ _normalize_offset (.num 7) = 7 :=
  ⟨normalizers_total_and_in_range.1 5000 1 1000 (by decide),
   normalizers_total_and_in_range.2.1 (.num 5000) 1 1000 (by decide),
   normalizers_total_and_in_range.2.2.1 (.str "junk") 1 1000 (by decide)
     (by simp +decide [pyInt, parsePyInt, trimChars, isSpaceChar, isDigitRun]),
   normalizers_total_and_in_range.2.2.2.1 .null rfl,
   normalizers_total_and_in_range.2.2.2.2.1 (.num (-5)) (-5)
     (by simp only [pyInt, pyTrunc]
         rw [if_neg (by norm_num), show ((-5 : ℚ)) = (((-5 : ℤ) : ℚ)) by norm_num,
           Int.ceil_intCast]) (by decide),
   normalizers_total_and_in_range.2.2.2.2.2 (.num 7) 7
     (by norm_num [pyInt, pyTrunc]) (by decide)⟩

/-- Claim C6: the retry delay equals the numeric `Retry-After` header
value clamped into `[0, 8]` when present and parsing as a number (and is
then itself within `[0, 8]`); otherwise — header absent or non-numeric —
it equals `min(0.5 * 2^(attempt-1), 8)`, i.e. 0.5, 1, 2, 4, then capped
at 8. -/
theorem retry_delay_policy :
    (∀ (n : ℕ) (r : HResponse) (s : String) (q : ℚ),
      r.retryAfter = some s → parsePyFloat s = some q →
      _retry_delay_seconds n (some r) = max 0 (min q 8)
        ∧ 0 ≤ _retry_delay_seconds n (some r)
        ∧ _retry_delay_seconds n (some r) ≤ 8)
    ∧ (∀ (n : ℕ) (r : HResponse) (s : String),
      r.retryAfter = some s → parsePyFloat s = Option.none →
      _retry_delay_seconds n (some r) = min (1/2 * 2 ^ (n - 1)) 8)
    ∧ (∀ (n : ℕ) (r : HResponse), r.retryAfter = Option.none →
      _retry_delay_seconds n (some r) = min (1/2 * 2 ^ (n - 1)) 8)
    ∧ _retry_delay_seconds 1 Option.none = 1/2
    ∧ _retry_delay_seconds 2 Option.none = 1
    ∧ _retry_delay_seconds 3 Option.none = 2
    ∧ _retry_delay_seconds 4 Option.none = 4
    ∧ (∀ n : ℕ, 5 ≤ n → _retry_delay_seconds n Option.none = 8) := by
  refine ⟨?_, ?_, ?_, ?_, ?_, ?_, ?_, ?_⟩
  · intro n r s q hr hq
    have he : _retry_delay_seconds n (some r) = max 0 (min q 8) := by
      simp [_retry_delay_seconds, hr, hq, BACKOFF_MAX_SECONDS]
    rw [he]
    exact ⟨rfl, le_max_left _ _, max_le (by norm_num) (min_le_right _ _)⟩
  · intro n r s hr hq
    simp [_retry_delay_seconds, hr, hq, BACKOFF_MAX_SECONDS, BACKOFF_BASE_SECONDS]
  · intro n r hr
    simp [_retry_delay_seconds, hr, BACKOFF_MAX_SECONDS, BACKOFF_BASE_SECONDS]
  · show min ((1 : ℚ)/2 * 2 ^ (1 - 1)) 8 = 1/2
    rw [min_eq_left (by norm_num)]; norm_num
  · show min ((1 : ℚ)/2 * 2 ^ (2 - 1)) 8 = 1
    rw [min_eq_left (by norm_num)]; norm_num
  · show min ((1 : ℚ)/2 * 2 ^ (3 - 1)) 8 = 2
    rw [min_eq_left (by norm_num)]; norm_num
  · show min ((1 : ℚ)/2 * 2 ^ (4 - 1)) 8 = 4
    rw [min_eq_left (by norm_num)]; norm_num
  · intro n hn
    simp only [_retry_delay_seconds, BACKOFF_MAX_SECONDS, BACKOFF_BASE_SECONDS]
    have h4 : (2 : ℚ) ^ 4 ≤ 2 ^ (n - 1) :=
      pow_le_pow_right₀ (by norm_num) (by omega)
    rw [min_eq_right (by nlinarith)]

/-- Witness for C6 at concrete inputs: `Retry-After: 3.5` is honored,
`Retry-After: soon` falls through to the exponential formula, a missing
header uses the exponential formula, and attempt 5 is capped at 8
seconds. -/
theorem retry_delay_policy_witness :
    (_retry_delay_seconds 2 (some ⟨503, some "3.5", .json .null⟩)
        = max 0 (min (7/2) 8)
      ∧ 0 ≤ _retry_delay_seconds 2 (some ⟨503, some "3.5", .json .null⟩)
      ∧ _retry_delay_seconds 2 (some ⟨503, some "3.5", .json .null⟩) ≤ 8)
    ∧ _retry_delay_seconds 2 (some ⟨503, some "soon", .json .null⟩)
        = min (1/2 * 2 ^ (2 - 1)) 8
    ∧ _retry_delay_seconds 2 (some ⟨503, Option.none, .json .null⟩)
        = min (1/2 * 2 ^ (2 - 1)) 8
    ∧ _retry_delay_seconds 5 Option.none = 8 :=
  ⟨retry_delay_policy.1 2 ⟨503, some "3.5", .json .null⟩ "3.5" (7/2) rfl
     (by simp +decide [parsePyFloat, trimChars, isSpaceChar, splitOnChar2,
           parseMantissa, splitOnChar, isDigitRun, digitsVal]
         norm_num),
   retry_delay_policy.2.1 2 ⟨503, some "soon", .json .null⟩ "soon" rfl
     (by simp +decide [parsePyFloat, trimChars, isSpaceChar, splitOnChar2,
           parseMantissa, splitOnChar, isDigitRun, digitsVal]),
   retry_delay_policy.2.2.1 2 ⟨503, Option.none, .json .null⟩ rfl,
   retry_delay_policy.2.2.2.2.2.2.2 5 (by decide)⟩

/-- Claim C8: the observation output list is the upstream observation list
mapped through the per-row cleaner, and per row: an upstream `value` equal
to the sentinel `"."` is emitted as `null`, while any other value string
is emitted unchanged (the `date` field passes through as well). -/
theorem observation_sentinel_to_null :
    (∀ (sid : String) (off : ℤ) (data : Json),
      jsonArrGet (Server.get_observations_reshape sid off data) "observations"
        = (jsonArrGet data "observations").map Server.clean_observation_row)
    ∧ (∀ row : Json, rowGet row "value" = .str "." →
      rowGet (Server.clean_observation_row row) "value" = .null)
    ∧ (∀ (row : Json) (s : String), s ≠ "." → rowGet row "value" = .str s →
      rowGet (Server.clean_observation_row row) "value" = .str s)
    ∧ (∀ row : Json,
      rowGet (Server.clean_observation_row row) "date" = rowGet row "date") := by
  refine ⟨?_, ?_, ?_, ?_⟩
  · intro sid off data
    rfl
  · intro row h
    simp only [Server.clean_observation_row]
    rw [h]
    simp [rowGet, alGet, isDotSentinel]
  · intro row s hs h
    simp only [Server.clean_observation_row]
    rw [h]
    simp [rowGet, alGet, isDotSentinel, hs]
  · intro row
    simp [Server.clean_observation_row, rowGet, alGet]

/-- Witness for C8 on the rows of the repository's own test
(`tests/test_http_and_observations.py`): a `"."` value becomes `null`, a
`"1.23"` value passes through. -/
theorem observation_sentinel_to_null_witness :
    rowGet (Server.clean_observation_row
        (.obj [("date", .str "2024-01-01"), ("value", .str ".")])) "value" = .null
    ∧ rowGet (Server.clean_observation_row
        (.obj [("date", .str "2024-02-01"), ("value", .str "1.23")])) "value"
        = .str "1.23" :=
  ⟨observation_sentinel_to_null.2.1
     (.obj [("date", .str "2024-01-01"), ("value", .str ".")]) rfl,
   observation_sentinel_to_null.2.2.1
     (.obj [("date", .str "2024-02-01"), ("value", .str "1.23")]) "1.23"
     (by decide) rfl⟩

/-- Claim C10: `get_observations` reports `count` as the length of its
reshaped output list (equivalently, of the upstream observations list),
ignoring any upstream `count` field — while `get_category_series` reports
the upstream `count` field whenever it is present. -/
theorem observations_count_is_row_count :
    (∀ (sid : String) (off : ℤ) (data : Json),
      dataGetD (Server.get_observations_reshape sid off data) "count" .null
        = .num ((jsonArrGet data "observations").map Server.clean_observation_row).length
      ∧ dataGetD (Server.get_observations_reshape sid off data) "count" .null
        = .num (jsonArrGet data "observations").length)
    ∧ (∀ (cid off : ℤ) (fields : List (String × Json)) (c : Json),
      alGet fields "count" = some c →
      dataGetD (Server.get_category_series_reshape cid off (.obj fields)) "count" .null
        = c) := by
  constructor
  · intro sid off data
    constructor
    · rfl
    · show Json.num _ = Json.num _
      rw [List.length_map]
  · intro cid off fields c h
    simp [Server.get_category_series_reshape, dataGetD, alGet, h]

/-- Witness for C10 on the upstream response of the repository's own test:
two observation rows with an upstream `count` of 5000 yield `count = 2`,
while the same upstream `count` on a series listing is reported as-is. -/
theorem observations_count_is_row_count_witness :
    dataGetD (Server.get_observations_reshape "GDP" 20
        (.obj [("count", .num 5000), ("offset", .num 120),
               ("observations", .arr
                 [.obj [("date", .str "2024-01-01"), ("value", .str ".")],
                  .obj [("date", .str "2024-02-01"), ("value", .str "1.23")]])]))
      "count" .null
      = .num (2 : ℕ)
    ∧ dataGetD (Server.get_category_series_reshape 1 0
        (.obj [("count", .num 5000), ("seriess", .arr [])])) "count" .null
      = .num 5000 := by
  constructor
  · have h := (observations_count_is_row_count.1 "GDP" 20
      (.obj [("count", .num 5000), ("offset", .num 120),
             ("observations", .arr
               [.obj [("date", .str "2024-01-01"), ("value", .str ".")],
                .obj [("date", .str "2024-02-01"), ("value", .str "1.23")]])])).2
    simpa [jsonArrGet, alGet] using h
  · exact observations_count_is_row_count.2 1 0
      [("count", .num 5000), ("seriess", .arr [])] (.num 5000) rfl

/-- Function `_clean_params` never introduces a key: a key absent from the input is
absent from the output. -/
theorem alGet_clean_params_none (ps : List (String × Json)) (k : String)
    (h : alGet ps k = Option.none) : alGet (_clean_params ps) k = Option.none := by
  induction ps with
  | nil => simpa [_clean_params] using h
  | cons hd tl ih =>
    obtain ⟨k', v⟩ := hd
    by_cases hk : k' = k
    · subst hk
      simp [alGet] at h
    · rw [alGet, if_neg hk] at h
      cases v <;> simp [_clean_params, alGet, hk] <;> exact ih h

/-- Claim C5: with a configured API key and caller parameters that do not
themselves spell an `api_key` entry, a v2 facade call carries the key in a
request header named `api_key` and never as a query parameter, while v1
primary and geographic facade calls carry it only as the query parameter
`api_key` (with no headers at all); in all three cases the query parameter
`file_type=json` is forced. -/
theorem api_key_injection_by_facade (env : Option String) (key endpoint : String)
    (params : List (String × Json))
    (hkey : _fred_api_key env = .ok key)
    (habs : alGet params "api_key" = Option.none) :
    (∃ r : Request, Client.fredV2Outgoing env endpoint params = .ok r
      ∧ r.headers = [("api_key", key)]
      ∧ alGet r.query "api_key" = Option.none
      ∧ alGet r.query "file_type" = some (.str "json"))
    ∧ (∃ r : Request, Client.fredOutgoing env endpoint params = .ok r
      ∧ r.headers = []
      ∧ alGet r.query "api_key" = some (.str key)
      ∧ alGet r.query "file_type" = some (.str "json"))
    ∧ (∃ r : Request, Client.geofredOutgoing env endpoint params = .ok r
      ∧ r.headers = []
      ∧ alGet r.query "api_key" = some (.str key)
      ∧ alGet r.query "file_type" = some (.str "json")) := by
  have hv1 : ∀ base : String,
      ∃ r : Request, outgoingRequest env base endpoint params [] true = .ok r
        ∧ r.headers = []
        ∧ alGet r.query "api_key" = some (.str key)
        ∧ alGet r.query "file_type" = some (.str "json") := by
    intro base
    refine ⟨⟨base, stripSlashes endpoint,
      alSet (alSet (_clean_params params) "api_key" (.str key))
        "file_type" (.str "json"), []⟩, ?_, rfl, ?_, ?_⟩
    · simp [outgoingRequest, buildQuery, hkey, Except.map]
    · rw [alGet_alSet_ne _ _ _ _ (by decide), alGet_alSet_self]
    · rw [alGet_alSet_self]
  refine ⟨?_, hv1 FRED_API_BASE, hv1 GEOFRED_API_BASE⟩
  refine ⟨⟨FRED_V2_API_BASE, stripSlashes endpoint,
    alSet (_clean_params params) "file_type" (.str "json"),
    [("api_key", key)]⟩, ?_, rfl, ?_, ?_⟩
  · simp [Client.fredV2Outgoing, hkey, outgoingRequest, buildQuery, Except.map]
  · rw [alGet_alSet_ne _ _ _ _ (by decide)]
    exact alGet_clean_params_none params "api_key" habs
  · rw [alGet_alSet_self]

/-- Witness for C5 at a concrete configuration: key `"test-fred-api-key"`,
endpoint `"release/observations"`, one boolean parameter. -/
theorem api_key_injection_by_facade_witness :
    (∃ r : Request, Client.fredV2Outgoing (some "test-fred-api-key")
        "release/observations" [("flag", .bool true)] = .ok r
      ∧ r.headers = [("api_key", "test-fred-api-key")]
      ∧ alGet r.query "api_key" = Option.none
      ∧ alGet r.query "file_type" = some (.str "json"))
    ∧ (∃ r : Request, Client.fredOutgoing (some "test-fred-api-key")
        "release/observations" [("flag", .bool true)] = .ok r
      ∧ r.headers = []
      ∧ alGet r.query "api_key" = some (.str "test-fred-api-key")
      ∧ alGet r.query "file_type" = some (.str "json"))
    ∧ (∃ r : Request, Client.geofredOutgoing (some "test-fred-api-key")
        "release/observations" [("flag", .bool true)] = .ok r
      ∧ r.headers = []
      ∧ alGet r.query "api_key" = some (.str "test-fred-api-key")
      ∧ alGet r.query "file_type" = some (.str "json")) :=
  api_key_injection_by_facade (some "test-fred-api-key") "test-fred-api-key"
    "release/observations" [("flag", .bool true)]
    (by simp +decide [_fred_api_key, trimChars, isSpaceChar]) rfl

/-- Claim C1: the boundary `_tool_error_boundary` itself maps every inner
outcome exactly as the claim states — values pass through, a
`FredServerError` is unwrapped to its payload, a `ValueError` becomes a
`validation_error` payload, any other exception becomes an
`internal_error` payload, and cancellation (and only cancellation) is
re-raised.  However, no tool of `src/fred_server.py` is wrapped with it:
`get_category` invoked with a missing API key terminates with a raised
`ValueError` escaping the tool — not a returned payload — for every
oracle, before any request is issued. -/
theorem tool_boundary_and_unwrapped_tools :
    (∀ j : Json, _tool_error_boundary (.ok j) = .ok j)
    ∧ (∀ p : Json, _tool_error_boundary (.fredError p) = .ok p)
    ∧ (∀ m : String, _tool_error_boundary (.valueError m)
        = .ok (_error_payload m "validation_error" "validation_error"
            Option.none Option.none Option.none false []))
    ∧ (∀ t : String, _tool_error_boundary (.otherError t)
        = .ok (_error_payload "Internal server error" "internal_error"
            "internal_error" Option.none Option.none Option.none false
            [("exception_type", .str t)]))
    ∧ (∀ o : ToolOutcome, _tool_error_boundary o = .cancelled ↔ o = .cancelled)
    ∧ (∀ oracle : Request → HResponse,
      Server.get_category Option.none oracle 0 Option.none Option.none
        = ⟨0, .error (.valueError "Missing FRED_API_KEY environment variable")⟩) := by
  refine ⟨fun j => rfl, fun p => rfl, fun m => rfl, fun t => rfl, ?_, fun oracle => rfl⟩
  intro o
  cases o <;> simp [_tool_error_boundary]

/-- Claim C3: a passthrough call whose `params_json` is not valid JSON
returns, with no request issued, the plain single-key dict
`{"error": "Invalid JSON: ..."}` — the message does begin with
`"Invalid JSON:"`, but the result carries no `error_details` mapping, so
it is not the canonical Error Payload the claim (and the repository's own
`tests/test_error_payloads.py`) requires. -/
theorem passthrough_invalid_json_plain_error :
    ∀ (env : Option String) (oracle : Request → HResponse),
      Server.fred_request env oracle "series" "\x7bbad-json"
        = ⟨0, .ok (.obj [("error", .str
            "Invalid JSON: Expecting property name enclosed in double quotes")])⟩
      ∧ Server.geofred_request env oracle "series" "\x7bbad-json"
        = ⟨0, .ok (.obj [("error", .str
            "Invalid JSON: Expecting property name enclosed in double quotes")])⟩
      ∧ Server.fred_v2_request env oracle "series" "\x7bbad-json"
        = ⟨0, .ok (.obj [("error", .str
            "Invalid JSON: Expecting property name enclosed in double quotes")])⟩
      ∧ beginsWith "Invalid JSON:"
          "Invalid JSON: Expecting property name enclosed in double quotes" = true
      ∧ alGet [("error", .str
            "Invalid JSON: Expecting property name enclosed in double quotes")]
          "error_details" = Option.none := by
  intro env oracle
  exact ⟨rfl, rfl, rfl, by decide, rfl⟩

/-- Lookup inside the `error_details` mapping of an Error Payload. -/
def payloadField (p : Json) (k : String) : Option Json :=
  match p with
  | .obj o =>
    match alGet o "error_details" with
    | some (.obj d) => alGet d k
    | _ => Option.none
  | _ => Option.none

/-- Backoff delay at attempt 1 of a 503 response with no `Retry-After`. -/
theorem retry_delay_503_one (b : Body) :
    _retry_delay_seconds 1 (some ⟨503, Option.none, b⟩) = 1/2 := by
  show min ((1 : ℚ)/2 * 2 ^ (1 - 1)) 8 = 1/2
  rw [min_eq_left (by norm_num)]; norm_num

/-- Backoff delay at attempt 2 of a 503 response with no `Retry-After`. -/
theorem retry_delay_503_two (b : Body) :
    _retry_delay_seconds 2 (some ⟨503, Option.none, b⟩) = 1 := by
  show min ((1 : ℚ)/2 * 2 ^ (2 - 1)) 8 = 1
  rw [min_eq_left (by norm_num)]; norm_num

/-- Backoff delay at attempt 3 of a 503 response with no `Retry-After`. -/
theorem retry_delay_503_three (b : Body) :
    _retry_delay_seconds 3 (some ⟨503, Option.none, b⟩) = 2 := by
  show min ((1 : ℚ)/2 * 2 ^ (3 - 1)) 8 = 2
  rw [min_eq_left (by norm_num)]; norm_num

/-- The attempt loop on a constant-503 oracle with 4 attempts: 4 requests,
sleeps `[0.5, 1, 2]`, terminal `FredServerError` at attempt 4. -/
theorem client_503_trace (base nep : String) (b : Body) :
    client_fetch_loop (fun _ => .resp ⟨503, Option.none, b⟩) base nep 4
        [1, 2, 3, 4] 0 []
      = ⟨4, [1/2, 1, 2],
          .fredError (upstream_http_error_payload base nep 503 true 4)⟩ := by
  simp +decide [client_fetch_loop, RETRYABLE_STATUS_CODES,
    retry_delay_503_one, retry_delay_503_two, retry_delay_503_three]

/-- Claim C2: the fetch engine of `src/fred_mcp/client.py`, on an upstream
that answers 503 to every attempt (no `Retry-After`), issues exactly
`HTTP_MAX_RETRIES + 1 = 4` GET requests, sleeps exactly 3 times with
delays `[0.5, 1, 2]`, and terminates with the Error Payload whose `code`
is `upstream_http_error`, `status_code` is 503 and `retryable` is true.
The engine that `src/fred_server.py` actually uses for its tools, however,
issues exactly one GET request and terminates with a raised
`httpx.HTTPStatusError` rather than an Error Payload. -/
theorem fetch_503_retry_behavior :
    (∀ (env : Option String) (key base_url endpoint : String)
       (params : List (String × Json)) (hdrs : List (String × String)) (b : Body),
      _fred_api_key env = .ok key →
      Client._http_get_json env (fun _ => .resp ⟨503, Option.none, b⟩)
          base_url endpoint params hdrs true
        = ⟨HTTP_MAX_RETRIES + 1, [1/2, 1, 2],
            .fredError (upstream_http_error_payload base_url
              (stripSlashes endpoint) 503 true 4)⟩)
    ∧ (∀ base_url nep : String,
      payloadField (upstream_http_error_payload base_url nep 503 true 4) "code"
          = some (.str "upstream_http_error")
        ∧ payloadField (upstream_http_error_payload base_url nep 503 true 4)
            "status_code" = some (.num 503)
        ∧ payloadField (upstream_http_error_payload base_url nep 503 true 4)
            "retryable" = some (.bool true))
    ∧ Server._http_get_json (some "k")
        (fun _ => ⟨503, Option.none, .json .null⟩) FRED_API_BASE "releases" [] [] true
        = ⟨1, .error (.httpStatusError 503)⟩ := by
  refine ⟨?_, fun base_url nep => ⟨rfl, rfl, rfl⟩, rfl⟩
  intro env key base_url endpoint params hdrs b hkey
  simp only [Client._http_get_json, outgoingRequest, buildQuery, hkey,
    if_true, Except.map]
  show client_fetch_loop _ _ _ 4 (List.range' 1 4) 0 [] = _
  rw [show List.range' 1 4 = [1, 2, 3, 4] from rfl]
  exact client_503_trace base_url (stripSlashes endpoint) b

/-- Witness for C2 at a concrete configuration. -/
theorem fetch_503_retry_behavior_witness :
    Client._http_get_json (some "k")
        (fun _ => .resp ⟨503, Option.none, .json .null⟩)
        FRED_API_BASE "releases" [] [] true
      = ⟨HTTP_MAX_RETRIES + 1, [1/2, 1, 2],
          .fredError (upstream_http_error_payload FRED_API_BASE
            (stripSlashes "releases") 503 true 4)⟩ :=
  fetch_503_retry_behavior.1 (some "k") "k" FRED_API_BASE "releases" [] []
    (.json .null) (by simp +decide [_fred_api_key, trimChars, isSpaceChar])

/-- The attempt loop only ever succeeds with a JSON object: every other
2xx body shape is turned into a `FredServerError` before returning. -/
theorem client_fetch_loop_success_obj (attemptOf : ℕ → AttemptR)
    (base nep : String) (maxA : ℕ) (l : List ℕ) :
    ∀ (reqs : ℕ) (sleeps : List ℚ) (j : Json),
      (client_fetch_loop attemptOf base nep maxA l reqs sleeps).outcome
        = .success j →
      isJsonObj j = true := by
  induction l with
  | nil =>
    intro reqs sleeps j h
    simp [client_fetch_loop] at h
  | cons a rest ih =>
    intro reqs sleeps j h
    rw [client_fetch_loop] at h
    cases hA : attemptOf a <;> rw [hA] at h <;> dsimp only at h
    case resp r =>
      by_cases h2 : 200 ≤ r.status ∧ r.status ≤ 299
      · rw [if_pos h2] at h
        cases hb : r.body <;> rw [hb] at h <;> dsimp only at h
        · rename_i jj
          by_cases ho : isJsonObj jj = true
          · rw [if_pos ho] at h
            dsimp only at h
            cases h
            exact ho
          · rw [if_neg ho] at h
            simp at h
        · simp at h
      · rw [if_neg h2] at h
        by_cases hr : (RETRYABLE_STATUS_CODES.contains r.status
            && decide (a < maxA)) = true
        · rw [if_pos hr] at h
          exact ih _ _ _ h
        · rw [if_neg hr] at h
          simp at h
    case transport m =>
      by_cases hc : a < maxA
      · rw [if_pos hc] at h
        exact ih _ _ _ h
      · rw [if_neg hc] at h
        simp at h
    case cancel =>
      simp at h

/-- Claim C4: the fetch engine of `src/fred_mcp/client.py` only ever
returns a JSON object: every successful outcome is an object, and a 2xx
response whose body decodes to a non-object terminates immediately (one
request, no sleep, no retry) with the `upstream_invalid_payload` Error
Payload.  The engine local to `src/fred_server.py`, by contrast, returns a
2xx array body as a success. -/
theorem fetch_success_is_object :
    (∀ (env : Option String) (attemptOf : ℕ → AttemptR)
       (base_url endpoint : String) (params : List (String × Json))
       (hdrs : List (String × String)) (inc : Bool) (j : Json),
      (Client._http_get_json env attemptOf base_url endpoint params hdrs inc).outcome
          = .success j →
      isJsonObj j = true)
    ∧ (∀ (env : Option String) (key base_url endpoint : String)
       (params : List (String × Json)) (hdrs : List (String × String)) (j : Json),
      _fred_api_key env = .ok key → isJsonObj j = false →
      Client._http_get_json env (fun _ => .resp ⟨200, Option.none, .json j⟩)
          base_url endpoint params hdrs true
        = ⟨1, [], .fredError (upstream_invalid_payload_payload base_url
            (stripSlashes endpoint) 1)⟩)
    ∧ Server._http_get_json (some "k")
        (fun _ => ⟨200, Option.none, .json (.arr [])⟩)
        FRED_API_BASE "series" [] [] true
      = ⟨1, .ok (.arr [])⟩ := by
  refine ⟨?_, ?_, rfl⟩
  · intro env attemptOf base_url endpoint params hdrs inc j h
    rw [Client._http_get_json] at h
    cases ho : outgoingRequest env base_url endpoint params hdrs inc <;> rw [ho] at h
    · simp at h
    · exact client_fetch_loop_success_obj attemptOf base_url
        (stripSlashes endpoint) (HTTP_MAX_RETRIES + 1)
        (List.range' 1 (HTTP_MAX_RETRIES + 1)) 0 [] j h
  · intro env key base_url endpoint params hdrs j hkey hobj
    simp only [Client._http_get_json, outgoingRequest, buildQuery, hkey,
      if_true, Except.map]
    show client_fetch_loop _ _ _ 4 (List.range' 1 4) 0 [] = _
    rw [show List.range' 1 4 = [1, 2, 3, 4] from rfl]
    simp +decide [client_fetch_loop, hobj]

/-- Witness for C4: a 2xx array body through the client.py engine yields
the `upstream_invalid_payload` Error Payload after exactly one request
(and, per the loop invariant, an array is indeed not a success value). -/
theorem fetch_success_is_object_witness :
    Client._http_get_json (some "k")
        (fun _ => .resp ⟨200, Option.none, .json (.arr [.num 1])⟩)
        FRED_API_BASE "series" [] [] true
      = ⟨1, [], .fredError (upstream_invalid_payload_payload FRED_API_BASE
          (stripSlashes "series") 1)⟩ :=
  fetch_success_is_object.2.1 (some "k") "k" FRED_API_BASE "series" [] []
    (.arr [.num 1]) (by simp +decide [_fred_api_key, trimChars, isSpaceChar]) rfl

end FredMcp
